import Mathlib

/-!
# mrjet-web: status reconciliation and control actions

A shallow embedding of `static/js/task_index.js` and `static/js/tasks.js`.

The document is an explicit `Page` value; every handler is a function from its inputs
(the server responses it receives, the user's answer to a dialog) and the page to the
new page and the list of outward effects it performs, in program order.

Conventions of the embedding
* `current_task` / `current_progress` are `Option`s: a JavaScript object is truthy, `null`
  and `undefined` are falsy.
* `percent` and `task_count` are integers a JavaScript number holds exactly (`SafeInt`,
  below 2^53 in absolute value); for these `String(n)` is the decimal numeral. Fractional
  and larger numbers are outside the embedding.
* An element's text is its `textContent`. Text assigned through `textContent` is stored
  verbatim; text interpolated into an `innerHTML` template is what the HTML parser makes
  of it (`htmlText`).
* The fill width is the `width` the `.progress-fill` element has in its `style` after the
  write. A percentage below zero is not a valid `width`: the browser drops such a
  declaration from a `style` attribute and ignores such an assignment to `style.width`.
* The elements the script looks up without creating them (the three status items,
  `.status-grid`, `.control-buttons`) are on the page, as the dashboard template provides
  them. A progress section carries its four elements `.progress-stage`, `.progress-percent`,
  `.progress-fill`, `.progress-detail`, and these classes occur nowhere else on the page.
* A request either yields a parsed JSON body (`some`) or fails (`none`); on failure the
  promise rejects and no callback runs.
-/

namespace MrjetWeb

/-! ## Data received from the server -/

/-- The `current_task` object of a status snapshot. -/
structure Task where
  url : String
deriving DecidableEq

/-- An integer that a JavaScript number holds exactly. -/
structure SafeInt where
  val : Int
  safe : val.natAbs < 2 ^ 53
deriving DecidableEq

/-- The `current_progress` object of a status snapshot. -/
structure Progress where
  stage : String
  percent : SafeInt
  raw_line : String
deriving DecidableEq

/-- The JSON body of `GET /api/status`. -/
structure StatusSnapshot where
  is_running : Bool
  current_task : Option Task
  task_count : SafeInt
  current_progress : Option Progress
deriving DecidableEq

/-- The JSON body of the `POST` endpoints: `success`, and `error` when the server sends one. -/
structure Response where
  success : Bool
  error : Option String
deriving DecidableEq

/-! ## Text written through `innerHTML`

`updateStatus` builds a new progress section from a template string assigned to
`innerHTML`, so the interpolated values go through the HTML parser. The model below covers
the part of the parser that matters for text: a `<` followed by a letter, `/`, `!` or `?`
opens markup, which contributes no text up to and including the next `>`; any other `<` is
text; the character references `&amp;`, `&lt;`, `&gt;` stand for one character; any other
`&` is text. Quoted `>` inside attributes, comments, the other character references,
newline normalisation and the dropping of NUL are left out. On a string without `<`, `&`,
carriage return and NUL the parser copies the string, and so does the model
(`htmlText_of_plain`).
-/

/-- After a `<`: does the next character open a tag, an end tag, a comment or a
declaration (so that the `<` is markup and not text)? -/
def opensMarkup : List Char → Bool
  | [] => false
  | c :: _ => c.isAlpha || c == '/' || c == '!' || c == '?'

/-- After a `&`: the character a reference stands for and the number of characters of the
reference still to skip. -/
def charRef (cs : List Char) : Option (Char × Nat) :=
  if "amp;".data.isPrefixOf cs then some ('&', 4)
  else if "lt;".data.isPrefixOf cs then some ('<', 3)
  else if "gt;".data.isPrefixOf cs then some ('>', 3)
  else none

/-- Characters of the text nodes the parser produces. `inTag` says that the scan is inside
markup opened by a `<`; `skip` is the number of characters of a character reference that
remain to be dropped. -/
def htmlTextFrom : Bool → Nat → List Char → List Char
  | _, _, [] => []
  | true, _, c :: cs => htmlTextFrom (c != '>') 0 cs
  | false, k + 1, _ :: cs => htmlTextFrom false k cs
  | false, 0, c :: cs =>
    if c = '<' then
      if opensMarkup cs then htmlTextFrom true 0 cs
      else '<' :: htmlTextFrom false 0 cs
    else if c = '&' then
      match charRef cs with
      | some (ch, k) => ch :: htmlTextFrom false k cs
      | none => '&' :: htmlTextFrom false 0 cs
    else c :: htmlTextFrom false 0 cs

/-- The `textContent` of an element whose content was written as `src` through `innerHTML`. -/
def htmlText (src : String) : String :=
  String.mk (htmlTextFrom false 0 src.data)

/-- A character the HTML parser copies into the text as it is. -/
def plainChar (c : Char) : Bool :=
  c != '<' && c != '&' && c != Char.ofNat 13 && c != Char.ofNat 0

/-- A string the HTML parser reads as plain text: no `<`, no `&`, no carriage return and
no NUL. -/
def isPlain (s : String) : Prop :=
  ∀ c ∈ s.data, plainChar c = true

instance (s : String) : Decidable (isPlain s) := by
  unfold isPlain; infer_instance

/-- `String(n)` for an integer `n` that a number holds exactly: the decimal numeral. -/
def jsNumber (n : SafeInt) : String :=
  toString n.val

/-- Is `percent%` a value the browser accepts for `width`? Negative percentages are not. -/
def validWidth (percent : SafeInt) : Bool :=
  decide (0 ≤ percent.val)

/-! ## The dashboard page -/

/-- The `.progress-section` element. `node` is the identity of the element; `heading` is
the `h3` the element carries besides the four fields the script maintains. -/
structure ProgressSection where
  node : Nat
  heading : String
  progress_stage : String
  progress_percent : String
  progress_fill_width : String
  progress_detail : String
deriving DecidableEq

/-- A child of `.control-buttons`. -/
inductive Control
  | button (onclick cls label : String)
  | link (href cls label : String)
deriving DecidableEq

/-- The part of the dashboard document `task_index.js` reads and writes.
`created` counts the `createElement` calls made so far and `removed` the `remove()` calls. -/
structure Page where
  status_text : String
  status_class : String
  task_text : String
  count_text : String
  progress_section : Option ProgressSection
  control_buttons : List Control
  created : Nat
  removed : Nat
deriving DecidableEq

/-- Line breaks and indentation before the interpolated `raw_line` inside the
`.progress-detail` element of the template: a newline and 28 spaces. -/
def detailLead : String :=
  "\n" ++ String.mk (List.replicate 28 (Char.ofNat 32))

/-- Line break and indentation after the interpolated `raw_line`: a newline and 24 spaces. -/
def detailTrail : String :=
  "\n" ++ String.mk (List.replicate 24 (Char.ofNat 32))

/-- The element built by `createElement('div')` and the `innerHTML` template
(task_index.js lines 24-38). Stage, percent text and detail are the text of the template's
`.progress-stage`, `.progress-percent` and `.progress-detail` elements, each read from the
template source between its tags; the fill width is the `width` the `style` attribute of
`.progress-fill` declares, and the element has no width when the declaration is not valid.
Markup inside one interpolated value is taken to stay inside its own element. -/
def newProgressSection (node : Nat) (p : Progress) : ProgressSection where
  node := node
  heading := "当前进度"
  progress_stage := htmlText p.stage
  progress_percent := htmlText (jsNumber p.percent ++ "%")
  progress_fill_width := if validWidth p.percent then jsNumber p.percent ++ "%" else ""
  progress_detail := htmlText (detailLead ++ p.raw_line ++ detailTrail)

/-- The four assignments of the update branch (task_index.js lines 42-45). The assignment
to `style.width` takes effect only for a valid width; otherwise the element keeps the
width it had. -/
def updateProgressSection (w : ProgressSection) (p : Progress) : ProgressSection :=
  { w with
    progress_stage := p.stage
    progress_percent := jsNumber p.percent ++ "%"
    progress_fill_width :=
      if validWidth p.percent then jsNumber p.percent ++ "%" else w.progress_fill_width
    progress_detail := p.raw_line }

/-- The status items (task_index.js lines 6-16). -/
def updateStatusItems (data : StatusSnapshot) (doc : Page) : Page :=
  { doc with
    status_text := if data.is_running then "运行中" else "已停止"
    status_class := "value " ++ (if data.is_running then "running" else "stopped")
    task_text := match data.current_task with
      | some t => t.url
      | none => "无"
    count_text := jsNumber data.task_count }

/-- The progress display (task_index.js lines 18-50). -/
def reconcileProgress (data : StatusSnapshot) (doc : Page) : Page :=
  match data.current_progress, data.current_task with
  | some p, some _ =>
    match doc.progress_section with
    | none =>
      { doc with
        progress_section := some (newProgressSection doc.created p)
        created := doc.created + 1 }
    | some w => { doc with progress_section := some (updateProgressSection w p) }
  | _, _ =>
    match doc.progress_section with
    | some _ => { doc with progress_section := none, removed := doc.removed + 1 }
    | none => doc

/-- The content assigned to `.control-buttons` (task_index.js lines 52-64). -/
def renderControls (is_running : Bool) : List Control :=
  if is_running then
    [Control.button "stopDownload()" "btn btn-stop" "停止下载",
     Control.link "/tasks" "btn btn-secondary" "管理任务"]
  else
    [Control.button "startDownload()" "btn btn-start" "开始下载",
     Control.link "/tasks" "btn btn-secondary" "管理任务"]

/-- The body of the `.then(data => ...)` callback of `updateStatus`. -/
def applyStatus (data : StatusSnapshot) (doc : Page) : Page :=
  let doc := updateStatusItems data doc
  let doc := reconcileProgress data doc
  { doc with control_buttons := renderControls data.is_running }

/-! ## Handlers and their effects -/

/-- What a handler does to the world outside the page, in program order. -/
inductive Effect
  | fetch (method url : String) (body : List (String × String))
  | confirm (message : String)
  | alert (message : String)
  | reset
  | reload
  | preventDefault
deriving DecidableEq

/-- Is the effect a network request? -/
def Effect.isFetch : Effect → Bool
  | .fetch _ _ _ => true
  | _ => false

/-- Is the effect a `POST` request? -/
def Effect.isPost : Effect → Bool
  | .fetch m _ _ => m == "POST"
  | _ => false

/-- Is the effect an `alert`? -/
def Effect.isAlert : Effect → Bool
  | .alert _ => true
  | _ => false

/-- Is the effect a reload of the page? -/
def Effect.isReload : Effect → Bool
  | .reload => true
  | _ => false

/-- The request `updateStatus` sends. -/
def statusRequest : Effect :=
  Effect.fetch "GET" "/api/status" []

/-- JavaScript string concatenation with a possibly missing value: `'' + undefined`. -/
def jsText : Option String → String
  | some s => s
  | none => "undefined"

/-- `updateStatus()` (task_index.js lines 2-66): one `GET /api/status`; when the response
arrives and parses (`some data`) the callback runs on the page, otherwise the promise
rejects and the page stays as it is. -/
def updateStatus (status : Option StatusSnapshot) (doc : Page) : Page × List Effect :=
  match status with
  | some data => (applyStatus data doc, [statusRequest])
  | none => (doc, [statusRequest])

/-- `startDownload()` (task_index.js lines 69-77). `resp` is the outcome of the `POST`,
`status` the outcome of the status request a successful start goes on to send. -/
def startDownload (resp : Option Response) (status : Option StatusSnapshot) (doc : Page) :
    Page × List Effect :=
  let request := Effect.fetch "POST" "/api/start_download" []
  match resp with
  | some data =>
    if data.success then
      let (doc, effects) := updateStatus status doc
      (doc, request :: effects)
    else (doc, [request])
  | none => (doc, [request])

/-- `stopDownload()` (task_index.js lines 80-88). -/
def stopDownload (resp : Option Response) (status : Option StatusSnapshot) (doc : Page) :
    Page × List Effect :=
  let request := Effect.fetch "POST" "/api/stop_download" []
  match resp with
  | some data =>
    if data.success then
      let (doc, effects) := updateStatus status doc
      (doc, request :: effects)
    else (doc, [request])
  | none => (doc, [request])

/-- The `submit` listener of `taskForm` (task_index.js lines 91-109). `formData` is the
content of the form at submission. -/
def taskFormSubmit (formData : List (String × String)) (resp : Option Response)
    (status : Option StatusSnapshot) (doc : Page) : Page × List Effect :=
  let request := Effect.fetch "POST" "/api/add_task" formData
  match resp with
  | some data =>
    if data.success then
      let (doc, effects) := updateStatus status doc
      (doc, [Effect.preventDefault, request, Effect.alert "任务添加成功!", Effect.reset] ++ effects)
    else
      (doc, [Effect.preventDefault, request, Effect.alert ("错误: " ++ jsText data.error)])
  | none => (doc, [Effect.preventDefault, request])

/-- `removeTask(index)` (tasks.js lines 1-20). `confirmed` is the user's answer to the
dialog. -/
def removeTask (index : Nat) (confirmed : Bool) (resp : Option Response) : List Effect :=
  let question := Effect.confirm "确定要删除这个任务吗？"
  if confirmed then
    let request := Effect.fetch "POST" "/api/remove_task" [("index", toString index)]
    match resp with
    | some data =>
      if data.success then [question, request, Effect.alert "任务删除成功!", Effect.reload]
      else [question, request, Effect.alert ("错误: " ++ jsText data.error)]
    | none => [question, request]
  else [question]

/-! ## Pages and snapshots used as concrete inputs -/

/-- A dashboard without a progress section, as served while nothing is downloading. -/
def idlePage : Page where
  status_text := "已停止"
  status_class := "value stopped"
  task_text := "无"
  count_text := "0"
  progress_section := none
  control_buttons := renderControls false
  created := 0
  removed := 0

/-- The snapshot of Scenario 2 of the specification. -/
def scenario2 : StatusSnapshot where
  is_running := true
  current_task := some (Task.mk "http://x")
  task_count := SafeInt.mk 1 (by decide)
  current_progress :=
    some (Progress.mk "downloading" (SafeInt.mk 42 (by decide)) "42% of 10MB")

/-- The dashboard after the snapshot of Scenario 2 reached the idle page: it carries a
progress section. -/
def busyPage : Page :=
  applyStatus scenario2 idlePage

/-- Scenario 3: the follow-up snapshot with `percent: 73`. -/
def scenario3 : StatusSnapshot where
  is_running := true
  current_task := some (Task.mk "http://x")
  task_count := SafeInt.mk 1 (by decide)
  current_progress :=
    some (Progress.mk "downloading" (SafeInt.mk 73 (by decide)) "73% of 10MB")

/-- A snapshot whose `stage` string contains markup. -/
def markupStage : StatusSnapshot where
  is_running := true
  current_task := some (Task.mk "http://x")
  task_count := SafeInt.mk 1 (by decide)
  current_progress :=
    some (Progress.mk "<b>downloading</b>" (SafeInt.mk 42 (by decide)) "42% of 10MB")

/-- A snapshot whose `raw_line` contains a character reference. -/
def ampersandLine : StatusSnapshot where
  is_running := true
  current_task := some (Task.mk "http://x")
  task_count := SafeInt.mk 1 (by decide)
  current_progress :=
    some (Progress.mk "downloading" (SafeInt.mk 42 (by decide)) "Tom &amp; Jerry 42%")

/-- A snapshot whose `percent` is above 100. -/
def overfull : StatusSnapshot where
  is_running := true
  current_task := some (Task.mk "http://x")
  task_count := SafeInt.mk 1 (by decide)
  current_progress :=
    some (Progress.mk "downloading" (SafeInt.mk 150 (by decide)) "150% of 10MB")

/-- A snapshot whose `percent` is below 0. -/
def underfull : StatusSnapshot where
  is_running := true
  current_task := some (Task.mk "http://x")
  task_count := SafeInt.mk 1 (by decide)
  current_progress :=
    some (Progress.mk "downloading" (SafeInt.mk (-5) (by decide)) "-5% of 10MB")

/-! ## Plain strings pass through the HTML parser unchanged -/

theorem plainChar_ne (c : Char) (h : plainChar c = true) : c ≠ '<' ∧ c ≠ '&' := by
  simp only [plainChar, Bool.and_eq_true, bne_iff_ne, ne_eq] at h
  exact ⟨h.1.1.1, h.1.1.2⟩

theorem htmlTextFrom_of_plain (cs : List Char) (h : ∀ c ∈ cs, plainChar c = true) :
    htmlTextFrom false 0 cs = cs := by
  induction cs with
  | nil => rfl
  | cons c cs ih =>
    have hc := plainChar_ne c (h c (List.mem_cons_self c cs))
    have hcs : ∀ d ∈ cs, plainChar d = true := fun d hd => h d (List.mem_cons_of_mem c hd)
    simp [htmlTextFrom, hc.1, hc.2, ih hcs]

theorem htmlText_of_plain (s : String) (h : isPlain s) : htmlText s = s := by
  unfold htmlText
  rw [htmlTextFrom_of_plain s.data h]

theorem isPlain_append (s t : String) (hs : isPlain s) (ht : isPlain t) : isPlain (s ++ t) := by
  intro c hc
  simp only [String.data_append, List.mem_append] at hc
  rcases hc with hc | hc
  · exact hs c hc
  · exact ht c hc

theorem digitChar_plain (d : Nat) (hd : d < 10) : plainChar (Nat.digitChar d) = true := by
  interval_cases d <;> decide

theorem toDigitsCore_plain (fuel n : Nat) (ds : List Char)
    (h : ∀ c ∈ ds, plainChar c = true) :
    ∀ c ∈ Nat.toDigitsCore 10 fuel n ds, plainChar c = true := by
  induction fuel generalizing n ds with
  | zero => simpa [Nat.toDigitsCore] using h
  | succ fuel ih =>
    have hd := digitChar_plain (n % 10) (Nat.mod_lt n (by decide))
    have hcons : ∀ c ∈ Nat.digitChar (n % 10) :: ds, plainChar c = true := by
      intro c hc
      rcases List.mem_cons.mp hc with rfl | hc
      · exact hd
      · exact h c hc
    unfold Nat.toDigitsCore
    dsimp only
    by_cases hz : n / 10 = 0
    · rw [if_pos hz]; exact hcons
    · rw [if_neg hz]; exact ih (n / 10) _ hcons

theorem natRepr_plain (n : Nat) : isPlain (toString n) := by
  show ∀ c ∈ (Nat.repr n).data, plainChar c = true
  unfold Nat.repr Nat.toDigits
  simpa [List.asString] using toDigitsCore_plain (n + 1) n [] (by simp)

theorem jsNumber_plain (n : SafeInt) : isPlain (jsNumber n) := by
  obtain ⟨v, hv⟩ := n
  unfold jsNumber
  cases v with
  | ofNat m => exact natRepr_plain m
  | negSucc m =>
    show isPlain ("-" ++ toString (m + 1))
    exact isPlain_append _ _ (by decide) (natRepr_plain (m + 1))

/-- The percent text of the template has no markup in it, whatever the number. -/
theorem percentText_plain (n : SafeInt) : isPlain (jsNumber n ++ "%") :=
  isPlain_append _ _ (jsNumber_plain n) (by decide)

/-- On a stage and a raw line without markup the create branch shows the stage verbatim
and the detail as `raw_line` inside the line breaks and indentation of the template. -/
theorem newProgressSection_of_plain (node : Nat) (p : Progress)
    (hs : isPlain p.stage) (hr : isPlain p.raw_line) :
    newProgressSection node p =
      ProgressSection.mk node "当前进度" p.stage (jsNumber p.percent ++ "%")
        (if validWidth p.percent = true then jsNumber p.percent ++ "%" else "")
        (detailLead ++ p.raw_line ++ detailTrail) := by
  have hd : isPlain (detailLead ++ p.raw_line ++ detailTrail) :=
    isPlain_append _ _ (isPlain_append _ _ (by decide) hr) (by decide)
  unfold newProgressSection
  rw [htmlText_of_plain _ hs, htmlText_of_plain _ (percentText_plain p.percent),
    htmlText_of_plain _ hd]

/-! ## The reconciliation step -/

/-- The status items and the control panel do not touch the progress section. -/
theorem applyStatus_progress_section (data : StatusSnapshot) (doc : Page) :
    (applyStatus data doc).progress_section = (reconcileProgress data doc).progress_section := by
  obtain ⟨run, task, count, progress⟩ := data
  obtain ⟨st, sc, tt, ct, widget, cb, cr, rm⟩ := doc
  cases progress <;> cases task <;> cases widget <;> rfl

/-- C1: after the reconciliation step a progress section exists exactly when the snapshot
carries both `current_progress` and `current_task`, whether or not one existed before. -/
theorem progress_section_iff_both_present (data : StatusSnapshot) (doc : Page) :
    (applyStatus data doc).progress_section.isSome = true ↔
      (data.current_progress.isSome = true ∧ data.current_task.isSome = true) := by
  rw [applyStatus_progress_section]
  obtain ⟨run, task, count, progress⟩ := data
  obtain ⟨st, sc, tt, ct, widget, cb, cr, rm⟩ := doc
  cases progress <;> cases task <;> cases widget <;> simp [reconcileProgress]

/-- C2: the control panel after the reconciliation step is exactly two controls, the Stop
action when `is_running` and the Start action otherwise, followed by the Manage-tasks link;
the previous panel and the other fields of the snapshot play no part. -/
theorem control_buttons_exact (data : StatusSnapshot) (doc : Page) :
    (applyStatus data doc).control_buttons =
      [if data.is_running = true then Control.button "stopDownload()" "btn btn-stop" "停止下载"
       else Control.button "startDownload()" "btn btn-start" "开始下载",
       Control.link "/tasks" "btn btn-secondary" "管理任务"] := by
  unfold applyStatus renderControls
  cases data.is_running <;> simp

/-- A second pass over the same snapshot creates no element, removes none, and leaves the
progress section, when there is one, the same element. -/
theorem applyStatus_second_pass_structure (data : StatusSnapshot) (doc : Page) :
    (applyStatus data (applyStatus data doc)).created = (applyStatus data doc).created ∧
    (applyStatus data (applyStatus data doc)).removed = (applyStatus data doc).removed ∧
    (applyStatus data (applyStatus data doc)).progress_section.map ProgressSection.node =
      (applyStatus data doc).progress_section.map ProgressSection.node := by
  obtain ⟨run, task, count, progress⟩ := data
  obtain ⟨st, sc, tt, ct, widget, cb, cr, rm⟩ := doc
  cases progress <;> cases task <;> cases widget <;>
    simp [applyStatus, reconcileProgress, updateStatusItems, updateProgressSection,
      newProgressSection]

/-- When the page already has a progress section, or the snapshot lacks the task or the
progress, a second pass over the same snapshot gives back the page of the first pass. -/
theorem applyStatus_twice_of_no_creation (data : StatusSnapshot) (doc : Page)
    (h : doc.progress_section.isSome = true ∨ data.current_progress = none ∨
      data.current_task = none) :
    applyStatus data (applyStatus data doc) = applyStatus data doc := by
  obtain ⟨run, task, count, progress⟩ := data
  obtain ⟨st, sc, tt, ct, widget, cb, cr, rm⟩ := doc
  cases progress <;> cases task <;> cases widget <;>
    simp_all [applyStatus, reconcileProgress, updateStatusItems, updateProgressSection]

/-- With a stage free of markup and a percent that is not negative, both branches show the
stage of the snapshot, and the percent followed by `%` as percent text and as fill width. -/
theorem progress_fields_of_plain_stage (data : StatusSnapshot) (doc : Page) (p : Progress)
    (t : Task) (hp : data.current_progress = some p) (ht : data.current_task = some t)
    (hs : isPlain p.stage) (hv : 0 ≤ p.percent.val) :
    ∃ w, (applyStatus data doc).progress_section = some w ∧
      w.progress_stage = p.stage ∧
      w.progress_percent = jsNumber p.percent ++ "%" ∧
      w.progress_fill_width = jsNumber p.percent ++ "%" := by
  rw [applyStatus_progress_section]
  obtain ⟨run, task, count, progress⟩ := data
  obtain ⟨st, sc, tt, ct, widget, cb, cr, rm⟩ := doc
  simp only at hp ht
  subst hp ht
  have hvalid : validWidth p.percent = true := by simp [validWidth, hv]
  cases widget with
  | none =>
    exact ⟨_, rfl, htmlText_of_plain _ hs,
      htmlText_of_plain _ (percentText_plain p.percent), by simp [newProgressSection, hvalid]⟩
  | some w => exact ⟨_, rfl, rfl, rfl, by simp [updateProgressSection, hvalid]⟩

/-- C3: evaluation at the failing input. From the idle page, the first pass over a snapshot
whose stage is `<b>downloading</b>` creates the section with stage text `downloading` and a
detail text padded by the template; a second pass over the same snapshot creates and removes
nothing but rewrites the stage text to `<b>downloading</b>` and the detail text to the bare
`raw_line`, so the page after the second pass is not the page after the first. -/
theorem second_pass_rewrites_created_section :
    (applyStatus markupStage idlePage).progress_section =
      some (ProgressSection.mk 0 "当前进度" "downloading" "42%" "42%"
        (detailLead ++ "42% of 10MB" ++ detailTrail)) ∧
    (applyStatus markupStage (applyStatus markupStage idlePage)).progress_section =
      some (ProgressSection.mk 0 "当前进度" "<b>downloading</b>" "42%" "42%" "42% of 10MB") ∧
    (applyStatus markupStage (applyStatus markupStage idlePage)).created =
      (applyStatus markupStage idlePage).created ∧
    (applyStatus markupStage (applyStatus markupStage idlePage)).removed =
      (applyStatus markupStage idlePage).removed ∧
    applyStatus markupStage (applyStatus markupStage idlePage) ≠
      applyStatus markupStage idlePage := by
  decide

/-- C4: evaluation at the failing input. The same snapshot, whose `raw_line` is
`Tom &amp; Jerry 42%`, reconciled into the idle page (create branch) shows the detail text
`Tom & Jerry 42%` inside the template padding, and reconciled into a page that already has a
progress section (update branch) shows `Tom &amp; Jerry 42%`. -/
theorem create_and_update_show_different_detail :
    (applyStatus ampersandLine idlePage).progress_section.map ProgressSection.progress_detail =
      some (detailLead ++ "Tom & Jerry 42%" ++ detailTrail) ∧
    (applyStatus ampersandLine busyPage).progress_section.map ProgressSection.progress_detail =
      some "Tom &amp; Jerry 42%" ∧
    (applyStatus ampersandLine idlePage).progress_section.map ProgressSection.progress_detail ≠
      (applyStatus ampersandLine busyPage).progress_section.map
        ProgressSection.progress_detail := by
  decide

/-- For `percent: -5` the percent text is `-5%` on both branches, a newly created fill
has no width, and the fill of an existing section keeps the `42%` it had. -/
theorem negative_percent_leaves_width :
    (applyStatus underfull idlePage).progress_section =
      some (ProgressSection.mk 0 "当前进度" "downloading" "-5%" ""
        (detailLead ++ "-5% of 10MB" ++ detailTrail)) ∧
    (applyStatus underfull busyPage).progress_section =
      some (ProgressSection.mk 0 "当前进度" "downloading" "-5%" "42%" "-5% of 10MB") := by
  decide

/-- C5, as stated, fails: for `percent: 150`, which lies outside [0,100], the fill width
is `150%` on the create branch and on the update branch, while the percent clamped into
[0,100] would give `100%`. -/
theorem fill_width_not_clamped :
    (applyStatus overfull idlePage).progress_section.map ProgressSection.progress_fill_width =
      some "150%" ∧
    (applyStatus overfull busyPage).progress_section.map ProgressSection.progress_fill_width =
      some "150%" ∧
    toString (max 0 (min 100 (150 : Int))) ++ "%" = "100%" ∧
    (applyStatus overfull idlePage).progress_section.map ProgressSection.progress_fill_width ≠
      some (toString (max 0 (min 100 (150 : Int))) ++ "%") ∧
    (applyStatus overfull busyPage).progress_section.map ProgressSection.progress_fill_width ≠
      some (toString (max 0 (min 100 (150 : Int))) ++ "%") := by
  decide

/-- C5, amended: for a snapshot with a task and a progress whose percent lies outside
[0,100], the percent text of the reconciled section is the percent as received followed by
`%`, and the fill width is not clamped. Above 100 the fill width is the percent as received
followed by `%`. Below 0 the width is not applied: a newly created fill has no width and the
fill of an existing section keeps the width it had. When the section has to be created the
stage is taken to be free of markup, so that the created section has the structure of the
template. -/
theorem fill_width_outside_range (data : StatusSnapshot) (doc : Page) (p : Progress)
    (t : Task) (hp : data.current_progress = some p) (ht : data.current_task = some t)
    (hout : p.percent.val < 0 ∨ 100 < p.percent.val)
    (_hs : doc.progress_section.isSome = true ∨ isPlain p.stage) :
    ∃ w, (applyStatus data doc).progress_section = some w ∧
      w.progress_percent = jsNumber p.percent ++ "%" ∧
      w.progress_fill_width =
        (if 100 < p.percent.val then jsNumber p.percent ++ "%"
         else match doc.progress_section with
           | some old => old.progress_fill_width
           | none => "") := by
  rw [applyStatus_progress_section]
  obtain ⟨run, task, count, progress⟩ := data
  obtain ⟨st, sc, tt, ct, widget, cb, cr, rm⟩ := doc
  simp only at hp ht
  subst hp ht
  have hvalid : validWidth p.percent = decide (100 < p.percent.val) := by
    unfold validWidth
    rcases hout with h | h
    · rw [decide_eq_false (by omega), decide_eq_false (by omega)]
    · rw [decide_eq_true (by omega), decide_eq_true h]
  cases widget with
  | none =>
    refine ⟨_, rfl, htmlText_of_plain _ (percentText_plain p.percent), ?_⟩
    simp [newProgressSection, hvalid]
  | some w =>
    refine ⟨_, rfl, rfl, ?_⟩
    simp [updateProgressSection, hvalid]

/-- Witness for `fill_width_outside_range`: `percent: 150` arriving at the idle page. -/
theorem fill_width_outside_range_witness :
    ∃ w, (applyStatus overfull idlePage).progress_section = some w ∧
      w.progress_percent = jsNumber (SafeInt.mk 150 (by decide)) ++ "%" ∧
      w.progress_fill_width =
        (if 100 < (150 : Int) then jsNumber (SafeInt.mk 150 (by decide)) ++ "%"
         else match idlePage.progress_section with
           | some old => old.progress_fill_width
           | none => "") :=
  fill_width_outside_range overfull idlePage
    (Progress.mk "downloading" (SafeInt.mk 150 (by decide)) "150% of 10MB")
    (Task.mk "http://x") rfl rfl (Or.inr (by decide)) (Or.inr (by decide))

/-- C6: evaluation at the failing input. On the idle page a snapshot with `percent: 42` and
stage `<b>downloading</b>` yields a section whose stage text is `downloading`, not the stage
string of the snapshot. -/
theorem created_stage_text_is_parsed :
    (applyStatus markupStage idlePage).progress_section.map ProgressSection.progress_stage =
      some "downloading" ∧
    markupStage.current_progress.map Progress.stage = some "<b>downloading</b>" ∧
    (applyStatus markupStage idlePage).progress_section.map ProgressSection.progress_stage ≠
      markupStage.current_progress.map Progress.stage := by
  decide

/-- C7: when a progress section exists and the snapshot carries both a task and a progress,
reconciliation keeps that element (same node, nothing created, nothing removed), leaves its
heading as it was and sets its stage text, percent text, fill width and detail text from the
snapshot; a negative percent, which is no valid width, leaves the fill width as it was. -/
theorem update_in_place (data : StatusSnapshot) (doc : Page) (w : ProgressSection)
    (p : Progress) (t : Task) (hw : doc.progress_section = some w)
    (hp : data.current_progress = some p) (ht : data.current_task = some t) :
    (applyStatus data doc).progress_section =
      some (ProgressSection.mk w.node w.heading p.stage (jsNumber p.percent ++ "%")
        (if 0 ≤ p.percent.val then jsNumber p.percent ++ "%" else w.progress_fill_width)
        p.raw_line) ∧
    (applyStatus data doc).created = doc.created ∧
    (applyStatus data doc).removed = doc.removed := by
  obtain ⟨run, task, count, progress⟩ := data
  obtain ⟨st, sc, tt, ct, widget, cb, cr, rm⟩ := doc
  simp only at hw hp ht
  subst hw hp ht
  refine ⟨?_, rfl, rfl⟩
  simp [applyStatus, reconcileProgress, updateStatusItems, updateProgressSection, validWidth]

/-- Witness for `update_in_place`: Scenario 3, the follow-up snapshot with `percent: 73`
arriving at the page Scenario 2 left. -/
theorem update_in_place_witness :
    (applyStatus scenario3 busyPage).progress_section =
      some (ProgressSection.mk 0 "当前进度" "downloading" "73%" "73%" "73% of 10MB") ∧
    (applyStatus scenario3 busyPage).created = busyPage.created ∧
    (applyStatus scenario3 busyPage).removed = busyPage.removed :=
  update_in_place scenario3 busyPage
    (ProgressSection.mk 0 "当前进度" "downloading" "42%" "42%"
      (detailLead ++ "42% of 10MB" ++ detailTrail))
    (Progress.mk "downloading" (SafeInt.mk 73 (by decide)) "73% of 10MB")
    (Task.mk "http://x") (by decide) rfl rfl

/-! ## The actions -/

/-- C8: `removeTask(index)` sends the remove request, with form field `index`, exactly when
the user confirms; after a cancel there is no request, no alert and no reload; after a
confirm, a response with `success` true gives the success alert followed by a reload, and a
response with `success` false gives one alert carrying the server's error and no reload. -/
theorem removeTask_contract (index : Nat) (confirmed success : Bool) (error : Option String) :
    (removeTask index confirmed (some (Response.mk success error))).filter Effect.isFetch =
      (if confirmed = true then
        [Effect.fetch "POST" "/api/remove_task" [("index", toString index)]]
       else []) ∧
    (removeTask index confirmed (some (Response.mk success error))).filter
        (fun e => e.isAlert || e.isReload) =
      (if confirmed = true then
        if success = true then [Effect.alert "任务删除成功!", Effect.reload]
        else [Effect.alert (match error with
          | some e => "错误: " ++ e
          | none => "错误: undefined")]
       else []) ∧
    (Effect.reload ∈ removeTask index confirmed (some (Response.mk success error)) ↔
      (confirmed = true ∧ success = true)) := by
  cases confirmed <;> cases success <;> cases error <;>
    simp [removeTask, jsText, List.filter, Effect.isFetch, Effect.isAlert, Effect.isReload]

/-- C9: the add-task handler shows exactly one alert, the success notice when the response
has `success` true and otherwise the prefix followed by the server's error string verbatim;
the form is reset, and the status is polled again and its snapshot reconciled, exactly when
the response has `success` true; otherwise the page is left as it was. -/
theorem taskFormSubmit_contract (formData : List (String × String)) (success : Bool)
    (error : Option String) (status : Option StatusSnapshot) (doc : Page) :
    (taskFormSubmit formData (some (Response.mk success error)) status doc).2.filter
        Effect.isAlert =
      [if success = true then Effect.alert "任务添加成功!"
       else Effect.alert (match error with
         | some e => "错误: " ++ e
         | none => "错误: undefined")] ∧
    (Effect.reset ∈ (taskFormSubmit formData (some (Response.mk success error)) status doc).2 ↔
      success = true) ∧
    (statusRequest ∈ (taskFormSubmit formData (some (Response.mk success error)) status doc).2 ↔
      success = true) ∧
    (taskFormSubmit formData (some (Response.mk success error)) status doc).1 =
      (if success = true then (updateStatus status doc).1 else doc) ∧
    (taskFormSubmit formData (some (Response.mk success error)) status doc).2.filter
        Effect.isPost = [Effect.fetch "POST" "/api/add_task" formData] := by
  cases success <;> cases error <;> cases status <;>
    simp [taskFormSubmit, updateStatus, jsText, statusRequest, Effect.isAlert, Effect.isPost]

/-- C10: `startDownload` and `stopDownload` each send exactly one `POST`, whatever the page
shows; the status is polled again exactly when the response has `success` true; when it has
`success` false the page is left as it was; in no case is an alert shown. -/
theorem start_stop_contract (resp : Response) (status : Option StatusSnapshot) (doc : Page) :
    ((startDownload (some resp) status doc).2.filter Effect.isPost =
        [Effect.fetch "POST" "/api/start_download" []] ∧
      (statusRequest ∈ (startDownload (some resp) status doc).2 ↔ resp.success = true) ∧
      (startDownload (some resp) status doc).1 =
        (if resp.success = true then (updateStatus status doc).1 else doc) ∧
      (startDownload (some resp) status doc).2.filter Effect.isAlert = []) ∧
    ((stopDownload (some resp) status doc).2.filter Effect.isPost =
        [Effect.fetch "POST" "/api/stop_download" []] ∧
      (statusRequest ∈ (stopDownload (some resp) status doc).2 ↔ resp.success = true) ∧
      (stopDownload (some resp) status doc).1 =
        (if resp.success = true then (updateStatus status doc).1 else doc) ∧
      (stopDownload (some resp) status doc).2.filter Effect.isAlert = []) := by
  obtain ⟨success, error⟩ := resp
  cases success <;> cases status <;>
    simp [startDownload, stopDownload, updateStatus, statusRequest, Effect.isAlert,
      Effect.isPost]

end MrjetWeb
